import Mathlib

/-!
Verification of the signal-generation core of `src/main.py` (class
`TradingSignal`): the RSI and SMA indicator computations, the inline
vote-based classification step of `generate_signal`, and the record
returned by `generate_signal`.

Floats of the Python source are modelled as rationals; the network fetch
and the wall clock are modelled by passing the fetched candle list and
the formatted time string as parameters.
-/

namespace TradingBot

/-- One parsed kline entry, as built in `fetch_data` (src/main.py, lines
44-52): `{timestamp, open, high, low, close, volume}`.  `open` is a Lean
keyword, hence the `open_` field name. -/
structure Candle where
  timestamp : Int
  open_ : ℚ
  high : ℚ
  low : ℚ
  close : ℚ
  volume : ℚ
deriving DecidableEq, Repr

/-- Python slice `l[-n:]`: for `n = 0` it is the whole list (`l[0:]`),
otherwise the last `n` elements (all of `l` when `n ≥ len(l)`). -/
def sliceLast {α : Type} (l : List α) (n : Nat) : List α :=
  if n = 0 then l else l.drop (l.length - n)

/-- Embedding of `calculate_rsi` (src/main.py, lines 59-78), with the
fetched candle list passed in place of `self` state. -/
def calculate_rsi (prices : List Candle) (period : Nat := 14) : ℚ :=
  if prices.length < period + 1 then 50
  else
    let closes := prices.map (fun p => p.close)
    let deltas := List.zipWith (fun a b => a - b) (closes.drop 1) closes
    let gains := (sliceLast deltas period).map (fun d => if d > 0 then d else 0)
    let losses := (sliceLast deltas period).map (fun d => if d < 0 then -d else 0)
    let avg_gain := gains.sum / (period : ℚ)
    let avg_loss := losses.sum / (period : ℚ)
    if avg_loss = 0 then 100
    else
      let rs := avg_gain / avg_loss
      100 - (100 / (1 + rs))

/-- Embedding of `calculate_sma` (src/main.py, lines 80-85). -/
def calculate_sma (prices : List Candle) (period : Nat) : ℚ :=
  if prices.length < period then 0
  else
    let closes := (sliceLast prices period).map (fun p => p.close)
    closes.sum / (period : ℚ)

/-- The discrete signal values appearing in `generate_signal`. -/
inductive Signal
  | BUY
  | SELL
  | HOLD
  | ERROR
deriving DecidableEq, Repr

/-- The triple produced by the classification block. -/
structure Classification where
  signal : Signal
  strength : Nat
  recommendation : String
deriving DecidableEq, Repr

/-- The classification step of `generate_signal` (src/main.py, lines
108-133): two if/elif votes into `buy_signals`/`sell_signals`, then the
threshold decision.  `current_price` is in scope there but unused by the
vote logic. -/
def classify (current_price rsi sma_20 sma_50 : ℚ) : Classification :=
  let buy_signals : Nat :=
    (if rsi < 30 then 1 else 0) +
    (if sma_20 > sma_50 then 1 else 0)
  let sell_signals : Nat :=
    (if rsi < 30 then 0 else if rsi > 70 then 1 else 0) +
    (if sma_20 > sma_50 then 0 else if sma_20 < sma_50 then 1 else 0)
  if buy_signals ≥ 2 then
    { signal := Signal.BUY, strength := buy_signals,
      recommendation := "Strong BUY signal detected" }
  else if sell_signals ≥ 2 then
    { signal := Signal.SELL, strength := sell_signals,
      recommendation := "Strong SELL signal detected" }
  else
    { signal := Signal.HOLD, strength := 0,
      recommendation := "No clear signal - HOLD position" }

/-- The record returned by `generate_signal`.  The Python error branch
(lines 92-101) builds a dict WITHOUT a `timestamp` key, so the field is
an `Option`: `none` models the absent key. -/
structure SignalResult where
  symbol : String
  price : ℚ
  signal : Signal
  strength : Nat
  rsi : ℚ
  sma_20 : ℚ
  sma_50 : ℚ
  recommendation : String
  timestamp : Option String
deriving DecidableEq, Repr

/-- Embedding of `generate_signal` (src/main.py, lines 87-145),
parameterised over the candle list returned by `fetch_data` and over the
formatted wall-clock string produced by `datetime.now().strftime` on
line 144. -/
def generate_signal (symbol : String) (prices : List Candle) (now : String) :
    SignalResult :=
  if h : prices = [] then
    { symbol := symbol, price := 0, signal := Signal.ERROR, strength := 0,
      rsi := 0, sma_20 := 0, sma_50 := 0,
      recommendation := "Unable to fetch data", timestamp := none }
  else
    let current_price := (prices.getLast h).close
    let rsi := calculate_rsi prices 14
    let sma_20 := calculate_sma prices 20
    let sma_50 := calculate_sma prices 50
    let c := classify current_price rsi sma_20 sma_50
    { symbol := symbol, price := current_price, signal := c.signal,
      strength := c.strength, rsi := rsi, sma_20 := sma_20, sma_50 := sma_50,
      recommendation := c.recommendation, timestamp := some now }

/-! Spec-side definitions, written from the specification's wording, to be
compared with the source embeddings above. -/

/-- The last `n` elements of a list (the empty list when `n = 0`). -/
def lastN {α : Type} (l : List α) (n : Nat) : List α :=
  l.drop (l.length - n)

/-- RSI as the spec words it: close-to-close deltas over the full
sequence, the last `period` of them, `avg_gain` the sum of the positive
deltas over `period`, `avg_loss` the sum of the absolute values of the
negative deltas over `period`; `100` when `avg_loss = 0`, otherwise
`100 - 100/(1 + avg_gain/avg_loss)`. -/
def rsiSpec (prices : List Candle) (period : Nat) : ℚ :=
  let closes := prices.map (fun p => p.close)
  let deltas := List.zipWith (fun a b => a - b) (closes.drop 1) closes
  let window := lastN deltas period
  let avg_gain := ((window.filter (fun d => decide (0 < d))).sum) / (period : ℚ)
  let avg_loss := (((window.filter (fun d => decide (d < 0))).map (fun d => |d|)).sum) / (period : ℚ)
  if avg_loss = 0 then 100 else 100 - 100 / (1 + avg_gain / avg_loss)

/-- SMA as the spec words it: `0` when the sequence is shorter than
`period`, otherwise the arithmetic mean of the closing prices of the
last `period` candles. -/
def smaSpec (prices : List Candle) (period : Nat) : ℚ :=
  if prices.length < period then 0
  else
    let window := (lastN prices period).map (fun p => p.close)
    window.sum / (window.length : ℚ)

/-- The classification step as the claim words it: a buy counter fed by
the two buy conditions, a sell counter fed by the two sell conditions
(each mutually exclusive with its buy counterpart, no vote on equality),
then the same threshold decision. -/
def classifySpec (current_price rsi sma_20 sma_50 : ℚ) : Classification :=
  let buy_count : Nat :=
    (if rsi < 30 then 1 else 0) + (if sma_20 > sma_50 then 1 else 0)
  let sell_count : Nat :=
    (if rsi > 70 then 1 else 0) + (if sma_20 < sma_50 then 1 else 0)
  if buy_count ≥ 2 then
    { signal := Signal.BUY, strength := buy_count,
      recommendation := "Strong BUY signal detected" }
  else if sell_count ≥ 2 then
    { signal := Signal.SELL, strength := sell_count,
      recommendation := "Strong SELL signal detected" }
  else
    { signal := Signal.HOLD, strength := 0,
      recommendation := "No clear signal - HOLD position" }

/-! Concrete candle builders used by scenario theorems and witnesses. -/

/-- A candle whose four price fields all equal `x`. -/
def mkCandle (x : ℚ) : Candle :=
  { timestamp := 0, open_ := x, high := x, low := x, close := x, volume := 0 }

/-- A list of `n` candles whose closes start at `c` and increase by
exactly 1 at each step. -/
def rampCandles (c : ℚ) (n : Nat) : List Candle :=
  (List.range n).map (fun (i : Nat) => mkCandle (c + (i : ℚ)))

/-! Helper lemmas shared by the claim theorems. -/

/-- For nonzero `n`, `sliceLast` agrees with `lastN`. -/
lemma sliceLast_eq_lastN {α : Type} (l : List α) (n : Nat) (h : n ≠ 0) :
    sliceLast l n = lastN l n := by
  unfold sliceLast lastN
  rw [if_neg h]

/-- Summing the positive parts equals summing the positive elements. -/
lemma sum_map_pos_part (l : List ℚ) :
    (l.map (fun d => if d > 0 then d else 0)).sum
      = (l.filter (fun d => decide (0 < d))).sum := by
  induction l with
  | nil => rfl
  | cons a t ih =>
    by_cases h : 0 < a <;> simp [List.filter_cons, h, ih]

/-- Summing the negated negative parts equals summing the absolute values
of the negative elements. -/
lemma sum_map_neg_part (l : List ℚ) :
    (l.map (fun d => if d < 0 then -d else 0)).sum
      = ((l.filter (fun d => decide (d < 0))).map (fun d => |d|)).sum := by
  induction l with
  | nil => rfl
  | cons a t ih =>
    by_cases h : a < 0 <;> simp [List.filter_cons, h, ih, abs_of_neg]

/-- Claim C5: for every candle sequence of length strictly less than
`period + 1`, `calculate_rsi` returns exactly 50. -/
theorem rsi_short_input_returns_50 (prices : List Candle) (period : Nat)
    (h : prices.length < period + 1) :
    calculate_rsi prices period = 50 := by
  unfold calculate_rsi
  rw [if_pos h]

/-- Witness for C5 at the empty sequence and the default period 14. -/
theorem rsi_short_input_returns_50_witness :
    ([] : List Candle).length < 14 + 1 ∧ calculate_rsi [] 14 = 50 :=
  ⟨by decide, rsi_short_input_returns_50 [] 14 (by decide)⟩

/-- Claim C6: for every candle sequence and period, `calculate_sma`
returns 0 when the sequence is shorter than `period`, and otherwise the
arithmetic mean of the closing prices of the last `period` candles. -/
theorem sma_matches_spec (prices : List Candle) (period : Nat) :
    calculate_sma prices period = smaSpec prices period := by
  simp only [calculate_sma, smaSpec]
  split_ifs with h
  · rfl
  · rcases Nat.eq_zero_or_pos period with h0 | hpos
    · subst h0
      simp [sliceLast, lastN, List.drop_length]
    · rw [sliceLast_eq_lastN _ _ (by omega)]
      have hlen : (lastN prices period).length = period := by
        unfold lastN
        rw [List.length_drop]
        omega
      rw [List.length_map, hlen]

/-- Claim C3: whenever the fetched candle sequence is empty,
`generate_signal` returns signal=ERROR, strength=0, price=0, rsi=0,
sma_20=0, sma_50=0 and recommendation "Unable to fetch data". -/
theorem generate_signal_empty_error (symbol now : String) :
    (generate_signal symbol [] now).signal = Signal.ERROR ∧
    (generate_signal symbol [] now).strength = 0 ∧
    (generate_signal symbol [] now).price = 0 ∧
    (generate_signal symbol [] now).rsi = 0 ∧
    (generate_signal symbol [] now).sma_20 = 0 ∧
    (generate_signal symbol [] now).sma_50 = 0 ∧
    (generate_signal symbol [] now).recommendation = "Unable to fetch data" := by
  simp [generate_signal]

/-- Claim C4 failing input: the record built for an empty fetch result
carries no timestamp at all (the Python dict on lines 92-101 omits the
`timestamp` key, yet the UI reads it unconditionally on line 316). -/
theorem generate_signal_error_timestamp_missing :
    (generate_signal "BTCUSDT" [] "2026-10-12 00:00:00").timestamp = none := by
  simp [generate_signal]

/-- Claim C1: the classification step computes exactly the two votes and
the threshold decision described by the spec — the code's if/elif vote
blocks coincide with the spec's independent buy/sell counters (the elif
guards are redundant because the paired conditions are mutually
exclusive), and the decision rule is identical. -/
theorem classify_matches_spec (current_price rsi sma_20 sma_50 : ℚ) :
    classify current_price rsi sma_20 sma_50
      = classifySpec current_price rsi sma_20 sma_50 := by
  unfold classify classifySpec
  split_ifs <;> first | rfl | omega | (exfalso; linarith)

/-- Claim C10: the strength returned by the classification step is 0 or
2, never 1; BUY happens exactly when both buy votes fire, SELL exactly
when both sell votes fire, and otherwise the result is HOLD with
strength 0. -/
theorem classify_strength_zero_or_two (current_price rsi sma_20 sma_50 : ℚ) :
    ((classify current_price rsi sma_20 sma_50).signal =
      (if rsi < 30 ∧ sma_20 > sma_50 then Signal.BUY
       else if rsi > 70 ∧ sma_20 < sma_50 then Signal.SELL
       else Signal.HOLD)) ∧
    ((classify current_price rsi sma_20 sma_50).strength =
      (if rsi < 30 ∧ sma_20 > sma_50 then 2
       else if rsi > 70 ∧ sma_20 < sma_50 then 2
       else 0)) ∧
    ((classify current_price rsi sma_20 sma_50).strength = 0 ∨
     (classify current_price rsi sma_20 sma_50).strength = 2) := by
  unfold classify
  split_ifs <;> (try simp_all) <;> first | rfl | omega | linarith

/-- Any classification whose signal is BUY has strength exactly 2. -/
lemma classify_buy_strength_two (current_price rsi sma_20 sma_50 : ℚ)
    (h : (classify current_price rsi sma_20 sma_50).signal = Signal.BUY) :
    (classify current_price rsi sma_20 sma_50).strength = 2 := by
  unfold classify at h ⊢
  split_ifs at h ⊢ <;> simp_all

/-- Claim C9: the classifier is monotonic in its two votes — between two
inputs that both classify as BUY, if every BUY vote of the first is also
a BUY vote of the second, the second strength is at least the first. -/
theorem classify_buy_monotone (cp1 r1 a1 b1 cp2 r2 a2 b2 : ℚ)
    (h1 : (classify cp1 r1 a1 b1).signal = Signal.BUY)
    (h2 : (classify cp2 r2 a2 b2).signal = Signal.BUY)
    (hr : r1 < 30 → r2 < 30) (ht : a1 > b1 → a2 > b2) :
    (classify cp1 r1 a1 b1).strength ≤ (classify cp2 r2 a2 b2).strength := by
  rw [classify_buy_strength_two _ _ _ _ h1, classify_buy_strength_two _ _ _ _ h2]

/-- Witness for C9 at two concrete BUY inputs. -/
theorem classify_buy_monotone_witness :
    (classify 0 25 110 100).strength ≤ (classify 0 28 120 100).strength :=
  classify_buy_monotone 0 25 110 100 0 28 120 100
    (by decide) (by decide) (by decide) (by decide)

/-- The elements of the gains list are nonnegative, hence so is the sum. -/
lemma gains_sum_nonneg (l : List ℚ) :
    0 ≤ (l.map (fun d => if d > 0 then d else 0)).sum := by
  apply List.sum_nonneg
  intro x hx
  rcases List.mem_map.mp hx with ⟨d, _, rfl⟩
  split_ifs with h
  · linarith
  · exact le_refl 0

/-- The elements of the losses list are nonnegative, hence so is the sum. -/
lemma losses_sum_nonneg (l : List ℚ) :
    0 ≤ (l.map (fun d => if d < 0 then -d else 0)).sum := by
  apply List.sum_nonneg
  intro x hx
  rcases List.mem_map.mp hx with ⟨d, _, rfl⟩
  split_ifs with h
  · linarith
  · exact le_refl 0

/-- Bounds for the final RSI formula given nonnegative averages and a
nonzero average loss. -/
lemma rsi_formula_bounds (G L : ℚ) (hG : 0 ≤ G) (hL : 0 ≤ L) (hL0 : L ≠ 0) :
    0 ≤ 100 - 100 / (1 + G / L) ∧ 100 - 100 / (1 + G / L) ≤ 100 := by
  have hLpos : 0 < L := lt_of_le_of_ne hL (Ne.symm hL0)
  have hrs : 0 ≤ G / L := div_nonneg hG hL
  have h1 : (0 : ℚ) < 1 + G / L := by linarith
  constructor
  · have hup : 100 / (1 + G / L) ≤ 100 := div_le_self (by norm_num) (by linarith)
    linarith
  · have hlow : 0 ≤ 100 / (1 + G / L) := div_nonneg (by norm_num) (le_of_lt h1)
    linarith

/-- Claim C7: for every candle sequence (and every period), the value
returned by `calculate_rsi` lies in the closed interval [0, 100]. -/
theorem rsi_in_unit_range (prices : List Candle) (period : Nat) :
    0 ≤ calculate_rsi prices period ∧ calculate_rsi prices period ≤ 100 := by
  simp only [calculate_rsi]
  split_ifs with hlen hloss
  · norm_num
  · norm_num
  · exact rsi_formula_bounds _ _
      (div_nonneg (gains_sum_nonneg _) (Nat.cast_nonneg _))
      (div_nonneg (losses_sum_nonneg _) (Nat.cast_nonneg _))
      hloss

/-- Claim C2: on any candle sequence of length at least `period + 1`,
`calculate_rsi` computes exactly the spec's formula: last `period`
close-to-close deltas, average gain = sum of positive deltas over
`period`, average loss = sum of absolute values of negative deltas over
`period`, with the `avg_loss = 0 → 100` guard and otherwise
`100 - 100/(1 + avg_gain/avg_loss)`. -/
theorem rsi_matches_spec (prices : List Candle) (period : Nat)
    (h : period + 1 ≤ prices.length) :
    calculate_rsi prices period = rsiSpec prices period := by
  simp only [calculate_rsi, rsiSpec]
  rw [if_neg (by omega)]
  rcases Nat.eq_zero_or_pos period with h0 | hpos
  · subst h0
    norm_num [sliceLast, lastN, List.drop_length]
  · rw [sliceLast_eq_lastN _ _ (by omega), sum_map_pos_part, sum_map_neg_part]

/-- Witness for C2 on fifteen concrete candles at the default period. -/
theorem rsi_matches_spec_witness :
    14 + 1 ≤ (rampCandles 1 15).length ∧
    calculate_rsi (rampCandles 1 15) 14 = rsiSpec (rampCandles 1 15) 14 :=
  ⟨by decide, rsi_matches_spec (rampCandles 1 15) 14 (by decide)⟩

/-- A ramp of `n` candles has length `n`. -/
lemma rampCandles_length (c : ℚ) (n : Nat) : (rampCandles c n).length = n := by
  unfold rampCandles
  rw [List.length_map, List.length_range]

/-- Claim C8 counterexample: on 14 closes that strictly increase by 1 at
each step (starting at 1), `calculate_rsi` hits the `len < period + 1`
guard and returns 50, not 100 as the claim states. -/
theorem rsi_fourteen_ramp_returns_50 :
    calculate_rsi (rampCandles 1 14) 14 ≠ 100 ∧
    calculate_rsi (rampCandles 1 14) 14 = 50 := by
  decide

/-- Claim C8 amended: on 15 closes that strictly increase by 1 at each
step, the 14 deltas are all positive, the average loss is 0, and
`calculate_rsi` returns exactly 100. -/
theorem rsi_fifteen_ramp_returns_100 (c : ℚ) :
    calculate_rsi (rampCandles c 15) 14 = 100 := by
  have hrange : List.range 15 = [0,1,2,3,4,5,6,7,8,9,10,11,12,13,14] := by rfl
  have hd : List.zipWith (fun a b => a - b)
      (((rampCandles c 15).map (fun p => p.close)).drop 1)
      ((rampCandles c 15).map (fun p => p.close)) = List.replicate 14 1 := by
    simp [rampCandles, mkCandle, hrange]
    ring_nf
    simp
  simp only [calculate_rsi]
  rw [if_neg (by rw [rampCandles_length]; omega)]
  rw [hd]
  norm_num [sliceLast, List.map_replicate, List.sum_replicate]

end TradingBot
